import Mathlib

/-!
Shallow embedding of `src/anki-flashcard-builder.py`.

The program is a linear pipeline: for each Anki card lacking audio, look a
word up on the Cambridge dictionary site (audio URL, definition, examples),
fall back to a VocalWare text-to-speech URL when the page has no audio,
download the audio, upload it to AnkiConnect, and write the card fields.

Network and filesystem effects are modelled by an environment `Env` of
oracles (one per external call site); the pipeline itself is embedded as
pure functions over those oracles.  An uncaught Python exception is
modelled as `Except.error` with the exception text; emitted network calls
and card mutations are recorded in a trace of `Event`s.
-/

namespace AnkiFB

/-- Python truthiness of an optional string value: `None` and the empty
string are falsy, every other string is truthy. -/
def strTruthy : Option String → Bool
  | none => false
  | some s => s != ""

/-- Python `str.strip()`: remove leading and trailing whitespace. -/
def pyStrip (s : String) : String :=
  String.mk (((s.data.dropWhile Char.isWhitespace).reverse.dropWhile
    Char.isWhitespace).reverse)

/-- The fields of a parsed Cambridge dictionary page that the scraper reads
(lines 145-167 of the source): the `src` attribute of the first
`source` tag of type `audio/mpeg` (if any), the text of the
locale-specific definition block (if present), and the texts of the
`examp dexamp` example divs. -/
structure Page where
  audioSrc : Option String
  defBlock : Option String
  exampleBlocks : List String
deriving DecidableEq, Repr

/-- The dictionary of word information returned by
`get_cambridge_word_info` (lines 169-173). -/
structure WordEntry where
  audio_url : Option String
  definition : String
  examples : List String
deriving DecidableEq, Repr

/-- Line 158: `definition_tag.text.strip().rstrip(':') if definition_tag
else 'No definition found.'`.  Python `rstrip(':')` removes every trailing
colon, embedded here as dropping the maximal colon prefix of the reversed
character list. -/
def extractDefinition : Option String → String
  | none => "No definition found."
  | some t => String.mk (((pyStrip t).data.reverse.dropWhile (fun c => c == ':')).reverse)

/-- The keys of `language_dict` (lines 125-128): the closed set of
supported locale selectors. -/
def supportedLanguages : List String := ["en", "cn"]

/-- `get_cambridge_word_info(word, language)` (lines 121-173), over the
transport outcome of the page request.  Unsupported language: log and
return `None` (lines 130-132).  Transport error (`RequestException`,
lines 138-143): log and return `None`.  Otherwise parse the page: the
audio URL is the site prefix plus the `src` attribute when an
`audio/mpeg` source tag exists (lines 147-153), the definition comes
from the locale block via `extractDefinition` (lines 155-158), and the
examples are the first three example-div texts, each stripped
(lines 160-172). -/
def get_cambridge_word_info (language : String) (fetchResult : Except Unit Page) :
    Option WordEntry :=
  if language ∈ supportedLanguages then
    match fetchResult with
    | .error _ => none
    | .ok page =>
        some { audio_url := page.audioSrc.map (fun s => "https://dictionary.cambridge.org" ++ s)
             , definition := extractDefinition page.defBlock
             , examples := (page.exampleBlocks.take 3).map pyStrip }
  else none

/-- `get_cards(deck_name)` (lines 35-51), over the transport outcome of the
`findCards` post.  On success the function returns the response's
`result` list.  On `HTTPError`/`ConnectionError`/`Timeout` the except
block evaluates the f-string `f"Failed to fetch data from {url}: {e}"`
(line 49); the name `url` is bound neither in the function nor at module
scope, so Python raises `NameError` there and the `return None` on
line 50 is never reached — the `.error` constructor models that uncaught
exception escaping `get_cards`. -/
def get_cards (postResult : Except Unit (List Nat)) : Except String (Option (List Nat)) :=
  match postResult with
  | .ok ids => .ok (some ids)
  | .error _ => .error "NameError: name url is not defined"

/-- Outcome of the single `session.get` of `download_audio`, after the
mounted adapter's retries are resolved: either a connection-level failure
that exhausted the retries (raising `ConnectionError`), or a final HTTP
response with the given status code. -/
inductive GetResult where
  | conn_fail : GetResult
  | http : Nat → GetResult
deriving DecidableEq, Repr

/-- The retry policy mounted on the download session (lines 208-212):
`Retry(connect=3, backoff_factor=0.5)`; no `status_forcelist` is given,
so no HTTP status is retried. -/
structure RetryConfig where
  connect : Nat
  backoff_factor : ℚ
  status_forcelist : List Nat
deriving DecidableEq, Repr

/-- Line 209: `Retry(connect=3, backoff_factor=0.5)`. -/
def downloadRetryConfig : RetryConfig :=
  { connect := 3, backoff_factor := 1/2, status_forcelist := [] }

/-- `download_audio(url, file_name)` (lines 207-226).  The `try` block
issues the GET and calls `raise_for_status()`, which raises `HTTPError`
exactly for status codes `>= 400`; both that and a `ConnectionError`
from exhausted retries are `RequestException`s, so the `except` clause
catches them, prints, and returns `False` (lines 224-226); on success
the body is written to `file_name` and `True` is returned.  The result
type is `Except String Bool` so that a hypothetical exception escaping
the function would be an `.error`; the function never produces one. -/
def download_audio (res : GetResult) : Except String Bool :=
  match res with
  | .conn_fail => .ok false
  | .http status => if 400 ≤ status then .ok false else .ok true

/-- The ways the body of `upload_audio_to_anki` can go (lines 229-249):
reading the local file raises, the `requests.post` raises, or a JSON
response `{result, error}` is obtained (`result = none` models a
response without a `result` key, whose subscript raises `KeyError`). -/
inductive UploadOutcome where
  | fileUnreadable : UploadOutcome
  | transportFail : UploadOutcome
  | response : Option String → Option String → UploadOutcome
deriving DecidableEq, Repr

/-- `upload_audio_to_anki(file_name)` (lines 229-249).  The whole body is
wrapped in `try ... except Exception: return None`, so a file read
failure or transport exception yields `None`; a response whose `error`
field is non-null yields `None` (lines 243-245); otherwise
`response['result']` is returned — and if the `result` key is absent the
`KeyError` is caught by the same `except`, again yielding `None`. -/
def upload_audio_to_anki : UploadOutcome → Option String
  | .fileUnreadable => none
  | .transportFail => none
  | .response (some _) _ => none
  | .response none r => r

/-- The three card fields written by `updateNoteFields`
(lines 100-107). -/
structure NoteFields where
  audio : String
  definition : String
  extra_information : String
deriving DecidableEq, Repr

/-- Lines 78-86 of `add_word_info_to_note`: `None` examples become the
empty string, a list is joined with `<br>`. -/
def examplesText : Option (List String) → String
  | none => ""
  | some l => String.intercalate "<br>" l

/-- The field values `add_word_info_to_note(note_id, audio_file_name,
definition, examples)` sends to AnkiConnect (lines 65-108): `Audio` is
the sound directive around the uploaded file name, `Definition` is the
given text (empty when `None`), `Extra information` is the examples
joined with `<br>`. -/
def add_word_info_to_note_fields (audio_file_name : String)
    (definition : Option String) (examples : Option (List String)) : NoteFields :=
  { audio := "[sound:" ++ audio_file_name ++ "]"
  , definition := definition.getD ""
  , extra_information := examplesText examples }

/-- One note as `main` reads it (lines 258-262): the note id, the `Word`
field's value, and the `Audio` field's value (`none` models an absent
`Audio` field, which `.get('Audio', {}).get('value', '')` turns into
the empty string). -/
structure Note where
  note : Nat
  word : String
  audio : Option String
deriving DecidableEq, Repr

/-- The network calls and card mutations the per-note loop of `main` can
perform, in order of emission. -/
inductive Event where
  | lookupCall : String → Event
  | ttsCall : String → Event
  | downloadCall : String → String → Event
  | uploadCall : String → Event
  | updateCall : Nat → NoteFields → Option String → Event
deriving DecidableEq, Repr

/-- Whether an event is the `updateNoteFields` card mutation. -/
def Event.isUpdate : Event → Bool
  | .updateCall _ _ _ => true
  | _ => false

/-- The oracles for the external world during one run of `main`: the
chosen `--language`, the Cambridge page fetch per word, the VocalWare
TTS result per word (`get_vocalware_tts_url`: `None` on non-200, else
the request URL), the download GET outcome per audio URL, the upload
outcome per file name, the `error` field of the store's
`updateNoteFields` response per note id, and the `uuid.uuid4()` stream
indexed by how many UUIDs were drawn before. -/
structure Env where
  language : String
  page : String → Except Unit Page
  tts : String → Option String
  getAudio : String → GetResult
  uploadOutcome : String → UploadOutcome
  updateErr : Nat → Option String
  uuid : Nat → String

/-- Lines 291-302 of `main`, from the point where `audio_url` and the
file-name tag are fixed: if the URL is truthy, draw a UUID for the file
name, download, upload, and on success send the field update (whose
response error is only logged, line 112) and add the word to
`processed_words`; any failure leaves the card and the set untouched.
`evs` carries the lookup/TTS calls already emitted for this note. -/
def processWithUrl (env : Env) (processed : List String) (ctr : Nat) (n : Note)
    (info : WordEntry) (audio_url : Option String) (fileTag : String) (evs : List Event) :
    Except String (List String × Nat × List Event) :=
  if strTruthy audio_url then
    match download_audio (env.getAudio (audio_url.getD "")) with
    | .error e => .error e
    | .ok false => .ok (processed, ctr + 1, evs ++
        [Event.downloadCall (audio_url.getD "") (fileTag ++ "-" ++ env.uuid ctr ++ ".mp3")])
    | .ok true =>
      match upload_audio_to_anki (env.uploadOutcome (fileTag ++ "-" ++ env.uuid ctr ++ ".mp3")) with
      | none => .ok (processed, ctr + 1, evs ++
          [Event.downloadCall (audio_url.getD "") (fileTag ++ "-" ++ env.uuid ctr ++ ".mp3"),
           Event.uploadCall (fileTag ++ "-" ++ env.uuid ctr ++ ".mp3")])
      | some okName => .ok (processed.insert n.word, ctr + 1, evs ++
          [Event.downloadCall (audio_url.getD "") (fileTag ++ "-" ++ env.uuid ctr ++ ".mp3"),
           Event.uploadCall (fileTag ++ "-" ++ env.uuid ctr ++ ".mp3"),
           Event.updateCall n.note
             (add_word_info_to_note_fields okName (some info.definition) (some info.examples))
             (env.updateErr n.note)])
  else .ok (processed, ctr, evs)

/-- The body of the `for note in notes` loop of `main` (lines 257-302) for
one note, over the current `processed_words` and UUID counter.  A card
whose `Audio` field strips to non-empty is skipped (lines 262-266); a
word already in `processed_words` is skipped (lines 272-275); otherwise
Cambridge is consulted — when it returned `None`, line 280 subscripts
`None` and the `TypeError` aborts the run (`.error`); when it returned
an entry, its definition and examples are kept and either its audio URL
(tag `cambridge`) or, if that is falsy, the VocalWare URL (tag
`vocalware`, lines 284-286) is handed to `processWithUrl`. -/
def step (env : Env) (processed : List String) (ctr : Nat) (n : Note) :
    Except String (List String × Nat × List Event) :=
  if pyStrip (n.audio.getD "") = "" then
    if n.word ∈ processed then .ok (processed, ctr, [])
    else
      match get_cambridge_word_info env.language (env.page n.word) with
      | none => .error "TypeError: NoneType object is not subscriptable"
      | some info =>
        if strTruthy info.audio_url then
          processWithUrl env processed ctr n info info.audio_url "cambridge"
            [Event.lookupCall n.word]
        else
          processWithUrl env processed ctr n info (env.tts n.word) "vocalware"
            [Event.lookupCall n.word, Event.ttsCall n.word]
  else .ok (processed, ctr, [])

/-- The loop of `main` over the remaining notes, threading
`processed_words`, the UUID counter, and the accumulated event trace. -/
def runAux (env : Env) : List Note → List String → Nat → List Event →
    Except String (List String × Nat × List Event)
  | [], processed, ctr, acc => .ok (processed, ctr, acc)
  | n :: rest, processed, ctr, acc =>
    match step env processed ctr n with
    | .error e => .error e
    | .ok (p2, c2, evs) => runAux env rest p2 c2 (acc ++ evs)

/-- The per-note portion of `main(deck_name)` (lines 255-302): start with
an empty `processed_words` set and process the notes in order.  (The
initial `findCards`/`cardsInfo` reads of lines 252-253 precede this
loop and are modelled separately by `get_cards`.) -/
def run (env : Env) (notes : List Note) : Except String (List String × Nat × List Event) :=
  runAux env notes [] 0 []

/-- The number of trailing colons of a string, as the length of the maximal
colon-only suffix. -/
def trailingColonCount (s : String) : Nat :=
  (s.data.reverse.takeWhile (fun c => c == ':')).length

/-- A fully successful environment: the dictionary page has audio, a
definition block and one example, the TTS service answers, the download
gets HTTP 200, the store accepts the upload as `stored.mp3` and reports
no update error. -/
def envAllOk : Env :=
  { language := "en"
  , page := fun _ => .ok { audioSrc := some "/media/cat.mp3"
                         , defBlock := some " a small animal: "
                         , exampleBlocks := ["The cat sat. "] }
  , tts := fun _ => some "https://www.vocalware.com/tts/gen.php"
  , getAudio := fun _ => .http 200
  , uploadOutcome := fun _ => .response none (some "stored.mp3")
  , updateErr := fun _ => none
  , uuid := fun _ => "u0" }

/-- Like `envAllOk`, but the store's `updateNoteFields` response carries a
non-null error. -/
def envUpdateRejected : Env :=
  { envAllOk with updateErr := fun _ => some "collection is not available" }

/-- Like `envAllOk`, but the dictionary page has neither an audio source
tag nor a definition block, so audio must come from the TTS fallback. -/
def envFallbackOnly : Env :=
  { envAllOk with
      page := fun _ => .ok { audioSrc := none
                           , defBlock := none
                           , exampleBlocks := ["An example sentence. "] } }

/-- Like `envAllOk`, but every dictionary page request fails with a
transport error. -/
def envPageDown : Env := { envAllOk with page := fun _ => .error () }

/-- Like `envAllOk`, but the page has no audio source tag and the TTS
service returns a non-200 status, so no audio URL exists at all. -/
def envNoUrl : Env :=
  { envAllOk with
      page := fun _ => .ok { audioSrc := none, defBlock := some "a word:", exampleBlocks := [] }
    , tts := fun _ => none }

/-- Like `envAllOk`, but the media upload post raises a transport
exception. -/
def envUploadDown : Env := { envAllOk with uploadOutcome := fun _ => .transportFail }

end AnkiFB

namespace AnkiFB

/-- When a list's head after `dropWhile p` exists, it fails `p`. -/
lemma head_dropWhile_false {α : Type} (p : α → Bool) (l : List α) (a : α)
    (h : (l.dropWhile p).head? = some a) : p a = false := by
  induction l with
  | nil => simp [List.dropWhile] at h
  | cons x xs ih =>
    by_cases hx : p x
    · rw [List.dropWhile_cons_of_pos hx] at h; exact ih h
    · rw [List.dropWhile_cons_of_neg hx] at h
      simp at h
      subst h
      simpa using hx

/-- Invariant of the download/upload/update tail of the loop body: the word
lands in the processed set exactly when an update event was emitted, and
every update event emitted for this note carries the note's id and the
store's response error for it. -/
lemma processWithUrl_inv
    (env : Env) (p : List String) (c : Nat) (n : Note) (info : WordEntry)
    (au : Option String) (tag : String) (evs : List Event)
    (p2 : List String) (c2 : Nat) (evs2 : List Event)
    (h : processWithUrl env p c n info au tag evs = .ok (p2, c2, evs2))
    (hevs : evs.any Event.isUpdate = false)
    (herr : ∀ i fl e, Event.updateCall i fl e ∈ evs → i = n.note ∧ e = env.updateErr n.note) :
    ((evs2.any Event.isUpdate = true → n.word ∈ p2) ∧
     (n.word ∈ p2 → n.word ∈ p ∨ evs2.any Event.isUpdate = true)) ∧
    (∀ i fl e, Event.updateCall i fl e ∈ evs2 → i = n.note ∧ e = env.updateErr n.note) := by
  unfold processWithUrl at h
  split at h
  · split at h
    · exact absurd h (by simp)
    · injection h with h1; injection h1 with hp2 h2; injection h2 with hc2 hevs2
      subst hp2; subst hevs2
      refine ⟨⟨fun hu => ?_, fun hm => Or.inl hm⟩, ?_⟩
      · simp [List.any_append, Event.isUpdate, hevs] at hu
      · intro i fl e he
        rcases List.mem_append.1 he with h1 | h1
        · exact herr i fl e h1
        · simp [Event.isUpdate] at h1
    · split at h
      · injection h with h1; injection h1 with hp2 h2; injection h2 with hc2 hevs2
        subst hp2; subst hevs2
        refine ⟨⟨fun hu => ?_, fun hm => Or.inl hm⟩, ?_⟩
        · simp [List.any_append, Event.isUpdate, hevs] at hu
        · intro i fl e he
          rcases List.mem_append.1 he with h1 | h1
          · exact herr i fl e h1
          · simp [Event.isUpdate] at h1
      · injection h with h1; injection h1 with hp2 h2; injection h2 with hc2 hevs2
        subst hp2; subst hevs2
        refine ⟨⟨fun _ => List.mem_insert_self _ _,
          fun _ => Or.inr (by simp [List.any_append, Event.isUpdate])⟩, ?_⟩
        intro i fl e he
        rcases List.mem_append.1 he with h1 | h1
        · exact herr i fl e h1
        · simp only [List.mem_cons, List.mem_singleton, List.not_mem_nil, or_false,
            reduceCtorEq, false_or] at h1
          injection h1 with hi hfl he2
          exact ⟨hi, he2⟩
  · injection h with h1; injection h1 with hp2 h2; injection h2 with hc2 hevs2
    subst hp2; subst hevs2
    exact ⟨⟨fun hu => absurd hu (by simp [hevs]), fun hm => Or.inl hm⟩, herr⟩

/-- Invariant of one loop iteration: the note's word joins the processed
set exactly when an update was issued during the iteration, and every
update event carries this note's id and the store's response error for
it (which the code only logs). -/
lemma step_inv
    (env : Env) (p : List String) (c : Nat) (n : Note)
    (p2 : List String) (c2 : Nat) (evs : List Event)
    (h : step env p c n = .ok (p2, c2, evs)) :
    ((evs.any Event.isUpdate = true → n.word ∈ p2) ∧
     (n.word ∈ p2 → n.word ∈ p ∨ evs.any Event.isUpdate = true)) ∧
    (∀ i fl e, Event.updateCall i fl e ∈ evs → i = n.note ∧ e = env.updateErr n.note) := by
  unfold step at h
  split at h
  · split at h
    · injection h with h1; injection h1 with hp2 h2; injection h2 with hc2 hevs2
      subst hp2; subst hevs2
      exact ⟨⟨fun hu => absurd hu (by simp), fun hm => Or.inl hm⟩, by simp⟩
    · split at h
      · exact absurd h (by simp)
      · split at h
        · exact processWithUrl_inv _ _ _ _ _ _ _ _ _ _ _ h (by simp [Event.isUpdate])
            (by simp [Event.isUpdate])
        · exact processWithUrl_inv _ _ _ _ _ _ _ _ _ _ _ h (by simp [Event.isUpdate])
            (by simp [Event.isUpdate])
  · injection h with h1; injection h1 with hp2 h2; injection h2 with hc2 hevs2
    subst hp2; subst hevs2
    exact ⟨⟨fun hu => absurd hu (by simp), fun hm => Or.inl hm⟩, by simp⟩

/-- A card whose `Audio` field strips to non-empty is skipped untouched. -/
lemma step_skip_audio (env : Env) (p : List String) (c : Nat) (n : Note)
    (ha : ¬ pyStrip (n.audio.getD "") = "") :
    step env p c n = .ok (p, c, []) := by
  unfold step; rw [if_neg ha]

/-- A card whose word is already in the processed set is skipped
untouched. -/
lemma step_skip_processed (env : Env) (p : List String) (c : Nat) (n : Note)
    (ha : pyStrip (n.audio.getD "") = "") (hm : n.word ∈ p) :
    step env p c n = .ok (p, c, []) := by
  unfold step; rw [if_pos ha, if_pos hm]

/-- If every remaining note has non-whitespace audio, the loop changes
nothing and emits nothing. -/
lemma runAux_all_skip (env : Env) (notes : List Note) (p : List String) (c : Nat)
    (acc : List Event) (h : ∀ n ∈ notes, ¬ pyStrip (n.audio.getD "") = "") :
    runAux env notes p c acc = .ok (p, c, acc) := by
  induction notes generalizing p c acc with
  | nil => rfl
  | cons n rest ih =>
    rw [runAux, step_skip_audio env p c n (h n (List.mem_cons_self n rest))]
    simpa using ih p c acc (fun m hm => h m (List.mem_cons_of_mem n hm))

/-- When the lookup entry has no truthy audio URL and the TTS fallback is
falsy too, the iteration only performs the two lookups and changes
nothing. -/
lemma step_no_url (env : Env) (p : List String) (c : Nat) (n : Note) (info : WordEntry)
    (ha : pyStrip (n.audio.getD "") = "")
    (hp : n.word ∉ p)
    (hl : get_cambridge_word_info env.language (env.page n.word) = some info)
    (hau : strTruthy info.audio_url = false)
    (ht : strTruthy (env.tts n.word) = false) :
    step env p c n = .ok (p, c, [Event.lookupCall n.word, Event.ttsCall n.word]) := by
  unfold step
  rw [if_pos ha, if_neg hp, hl]
  simp [processWithUrl, hau, ht]

/-- The fallback-audio success path: the update event's fields come from
the lookup entry. -/
lemma step_fallback_ok (env : Env) (p : List String) (c : Nat) (n : Note) (info : WordEntry)
    (url okName : String)
    (ha : pyStrip (n.audio.getD "") = "")
    (hp : n.word ∉ p)
    (hl : get_cambridge_word_info env.language (env.page n.word) = some info)
    (hau : strTruthy info.audio_url = false)
    (ht : env.tts n.word = some url) (hurl : url ≠ "")
    (hd : download_audio (env.getAudio url) = Except.ok true)
    (hup : upload_audio_to_anki (env.uploadOutcome ("vocalware-" ++ env.uuid c ++ ".mp3"))
      = some okName) :
    step env p c n = .ok (p.insert n.word, c + 1,
      [Event.lookupCall n.word, Event.ttsCall n.word,
       Event.downloadCall url ("vocalware-" ++ env.uuid c ++ ".mp3"),
       Event.uploadCall ("vocalware-" ++ env.uuid c ++ ".mp3"),
       Event.updateCall n.note
         { audio := "[sound:" ++ okName ++ "]"
         , definition := info.definition
         , extra_information := String.intercalate "<br>" info.examples }
         (env.updateErr n.note)]) := by
  have h1 : strTruthy (some url) = true := by simp [strTruthy, hurl]
  unfold step
  rw [if_pos ha, if_neg hp, hl]
  simp [processWithUrl, hau, ht, h1, hd, hup, add_word_info_to_note_fields, examplesText]

/-- The path where the download succeeds but the upload returns `None`:
no update event, no processed-set change. -/
lemma step_upload_fail (env : Env) (p : List String) (c : Nat) (n : Note) (info : WordEntry)
    (okUrl : String)
    (ha : pyStrip (n.audio.getD "") = "")
    (hp : n.word ∉ p)
    (hl : get_cambridge_word_info env.language (env.page n.word) = some info)
    (hau : info.audio_url = some okUrl) (hurl : okUrl ≠ "")
    (hd : download_audio (env.getAudio okUrl) = Except.ok true)
    (hup : upload_audio_to_anki (env.uploadOutcome ("cambridge-" ++ env.uuid c ++ ".mp3"))
      = none) :
    step env p c n = .ok (p, c + 1,
      [Event.lookupCall n.word,
       Event.downloadCall okUrl ("cambridge-" ++ env.uuid c ++ ".mp3"),
       Event.uploadCall ("cambridge-" ++ env.uuid c ++ ".mp3")]) := by
  have h1 : strTruthy (some okUrl) = true := by simp [strTruthy, hurl]
  unfold step
  rw [if_pos ha, if_neg hp, hl]
  simp [processWithUrl, hau, h1, hd, hup]

end AnkiFB

namespace AnkiFB

/-- Claim C1 (amended): when Dictionary Lookup returns an entry with no
truthy audio URL, the Speech-Synthesis Fallback yields a URL, and
download and publish succeed, the `updateCard` call writes `Definition`
and `Extra information` from the lookup entry — the entry's definition
text (the placeholder `"No definition found."` when the page had no
definition block) and the entry's examples joined with `<br>` — not
empty strings. -/
theorem fallback_audio_update_writes_lookup_fields
    (env : Env) (p : List String) (c : Nat) (n : Note) (info : WordEntry)
    (url okName : String)
    (ha : pyStrip (n.audio.getD "") = "")
    (hp : n.word ∉ p)
    (hl : get_cambridge_word_info env.language (env.page n.word) = some info)
    (hau : strTruthy info.audio_url = false)
    (ht : env.tts n.word = some url) (hurl : url ≠ "")
    (hd : download_audio (env.getAudio url) = Except.ok true)
    (hup : upload_audio_to_anki (env.uploadOutcome ("vocalware-" ++ env.uuid c ++ ".mp3"))
      = some okName) :
    step env p c n = .ok (p.insert n.word, c + 1,
      [Event.lookupCall n.word, Event.ttsCall n.word,
       Event.downloadCall url ("vocalware-" ++ env.uuid c ++ ".mp3"),
       Event.uploadCall ("vocalware-" ++ env.uuid c ++ ".mp3"),
       Event.updateCall n.note
         { audio := "[sound:" ++ okName ++ "]"
         , definition := info.definition
         , extra_information := String.intercalate "<br>" info.examples }
         (env.updateErr n.note)]) :=
  step_fallback_ok env p c n info url okName ha hp hl hau ht hurl hd hup

/-- Witness for C1: a concrete fallback-audio run in which the update
writes the placeholder definition and the page's example sentence. -/
theorem fallback_audio_update_writes_lookup_fields_witness :
    step envFallbackOnly [] 0 ⟨7, "dog", none⟩ = .ok (["dog"], 1,
      [Event.lookupCall "dog", Event.ttsCall "dog",
       Event.downloadCall "https://www.vocalware.com/tts/gen.php" "vocalware-u0.mp3",
       Event.uploadCall "vocalware-u0.mp3",
       Event.updateCall 7
         { audio := "[sound:stored.mp3]"
         , definition := "No definition found."
         , extra_information := "An example sentence." }
         none]) :=
  fallback_audio_update_writes_lookup_fields envFallbackOnly [] 0 ⟨7, "dog", none⟩
    ⟨none, "No definition found.", ["An example sentence."]⟩
    "https://www.vocalware.com/tts/gen.php" "stored.mp3"
    rfl (by decide) rfl rfl rfl (by decide) rfl rfl

/-- Counterexample to C1 as stated: in a run where the page had no audio
URL, the fallback succeeded, and download and publish succeeded, the
update event's `Definition` is `"No definition found."` and its
`Extra information` is the page's example sentence — neither is the
empty string the claim requires. -/
theorem fallback_update_fields_not_empty_cex :
    run envFallbackOnly [⟨7, "dog", none⟩] = .ok (["dog"], 1,
      [Event.lookupCall "dog", Event.ttsCall "dog",
       Event.downloadCall "https://www.vocalware.com/tts/gen.php" "vocalware-u0.mp3",
       Event.uploadCall "vocalware-u0.mp3",
       Event.updateCall 7
         { audio := "[sound:stored.mp3]"
         , definition := "No definition found."
         , extra_information := "An example sentence." }
         none]) ∧
    (("No definition found." == "") = false) ∧
    (("An example sentence." == "") = false) :=
  ⟨rfl, rfl, rfl⟩

/-- Claim C2: on a transport error the dictionary lookup does return
`None` after logging — but the orchestrator then subscripts that `None`
(line 280), so the whole batch aborts with a `TypeError` instead of
proceeding to the Speech-Synthesis Fallback: the second card is never
reached. -/
theorem lookup_transport_error_aborts_run :
    get_cambridge_word_info "en" (Except.error ()) = none ∧
    run envPageDown [⟨1, "cat", none⟩, ⟨2, "dog", none⟩]
      = Except.error "TypeError: NoneType object is not subscriptable" :=
  ⟨rfl, rfl⟩

/-- Claim C3: when the `findCards` post fails with a connection failure or
timeout, `get_cards` does not return an empty/absent result: its error
log references the unbound name `url`, so a `NameError` escapes and the
run crashes.  On success the response's result list is returned. -/
theorem get_cards_transport_error_raises :
    get_cards (Except.error ()) = Except.error "NameError: name url is not defined" ∧
    get_cards (Except.ok [1, 2]) = Except.ok (some [1, 2]) :=
  ⟨rfl, rfl⟩

/-- Claim C4 (amended): a word is added to the processed set exactly when
the iteration issued the `updateNoteFields` call (lookup gave a URL or
the fallback did, download and publish succeeded) — the store's response
error, which every update event carries as `env.updateErr` of the
note's id, is only logged and does not prevent the addition. -/
theorem word_added_iff_update_call
    (env : Env) (p : List String) (c : Nat) (n : Note)
    (p2 : List String) (c2 : Nat) (evs : List Event)
    (i : Nat) (fl : NoteFields) (e : Option String)
    (h : step env p c n = .ok (p2, c2, evs)) :
    ((evs.any Event.isUpdate = true → n.word ∈ p2) ∧
     (n.word ∈ p2 → n.word ∈ p ∨ evs.any Event.isUpdate = true)) ∧
    (Event.updateCall i fl e ∈ evs → i = n.note ∧ e = env.updateErr n.note) :=
  ⟨(step_inv env p c n p2 c2 evs h).1, fun hm => (step_inv env p c n p2 c2 evs h).2 i fl e hm⟩

/-- Witness for C4: in the concrete run whose store rejects the update,
the word still ends up in the processed set, and the update event
carries the store's non-null error. -/
theorem word_added_iff_update_call_witness :
    (("cat" : String) ∈ (["cat"] : List String)) ∧
    envUpdateRejected.updateErr 1 = some "collection is not available" := by
  have h := word_added_iff_update_call envUpdateRejected [] 0 ⟨1, "cat", none⟩ ["cat"] 1
    [Event.lookupCall "cat",
     Event.downloadCall "https://dictionary.cambridge.org/media/cat.mp3" "cambridge-u0.mp3",
     Event.uploadCall "cambridge-u0.mp3",
     Event.updateCall 1
       { audio := "[sound:stored.mp3]"
       , definition := "a small animal"
       , extra_information := "The cat sat." }
       (some "collection is not available")]
    1 { audio := "[sound:stored.mp3]", definition := "a small animal"
      , extra_information := "The cat sat." }
    (some "collection is not available") rfl
  exact ⟨h.1.1 (by decide), ((h.2 (by decide)).2).symm⟩

/-- Counterexample to C4 as stated: the store's `updateNoteFields`
response carries the non-null error `"collection is not available"`, yet
the run ends with the word `"cat"` in the processed set. -/
theorem update_rejected_word_still_added_cex :
    run envUpdateRejected [⟨1, "cat", none⟩] = .ok (["cat"], 1,
      [Event.lookupCall "cat",
       Event.downloadCall "https://dictionary.cambridge.org/media/cat.mp3" "cambridge-u0.mp3",
       Event.uploadCall "cambridge-u0.mp3",
       Event.updateCall 1
         { audio := "[sound:stored.mp3]"
         , definition := "a small animal"
         , extra_information := "The cat sat." }
         (some "collection is not available")]) ∧
    (("cat" : String) ∈ (["cat"] : List String)) ∧
    (Option.isSome (some "collection is not available" : Option String) = true) :=
  ⟨rfl, by decide, rfl⟩

/-- Claim C5: when every note's `Audio` field already strips to
non-empty, the per-note loop performs no network call at all (no
lookup, no TTS, no download, no upload) and no card mutation: the event
trace is empty and the processed set and UUID counter stay at their
initial values. -/
theorem run_noop_when_all_cards_have_audio (env : Env) (notes : List Note)
    (h : ∀ n ∈ notes, ¬ pyStrip (n.audio.getD "") = "") :
    run env notes = .ok ([], 0, []) :=
  runAux_all_skip env notes [] 0 [] h

/-- Witness for C5: two concrete cards with non-whitespace audio are both
skipped without any event. -/
theorem run_noop_when_all_cards_have_audio_witness :
    run envAllOk [⟨1, "cat", some "[sound:a.mp3]"⟩, ⟨2, "dog", some " x "⟩]
      = .ok ([], 0, []) :=
  run_noop_when_all_cards_have_audio envAllOk
    [⟨1, "cat", some "[sound:a.mp3]"⟩, ⟨2, "dog", some " x "⟩] (by decide)

/-- Claim C6: if processing an earlier card reached the update (an update
event is in its trace), then a later card with the same word and an
empty `Audio` field is skipped with no events at all — no lookup, no
fallback, no download, no publish, no mutation. -/
theorem duplicate_word_second_card_skipped (env : Env) (p p1 : List String)
    (c c1 c2 : Nat) (n1 n2 : Note) (evs1 : List Event)
    (h1 : step env p c n1 = .ok (p1, c1, evs1))
    (hupd : evs1.any Event.isUpdate = true)
    (hw : n2.word = n1.word)
    (ha : pyStrip (n2.audio.getD "") = "") :
    step env p1 c2 n2 = .ok (p1, c2, []) := by
  have hm : n1.word ∈ p1 := ((step_inv env p c n1 p1 c1 evs1 h1).1).1 hupd
  exact step_skip_processed env p1 c2 n2 ha (hw ▸ hm)

/-- Witness for C6: after a successful first card for `"cat"`, a second
`"cat"` card with empty audio produces no events. -/
theorem duplicate_word_second_card_skipped_witness :
    step envAllOk ["cat"] 1 ⟨2, "cat", some ""⟩ = .ok (["cat"], 1, []) :=
  duplicate_word_second_card_skipped envAllOk [] ["cat"] 0 1 1
    ⟨1, "cat", none⟩ ⟨2, "cat", some ""⟩
    [Event.lookupCall "cat",
     Event.downloadCall "https://dictionary.cambridge.org/media/cat.mp3" "cambridge-u0.mp3",
     Event.uploadCall "cambridge-u0.mp3",
     Event.updateCall 1
       { audio := "[sound:stored.mp3]"
       , definition := "a small animal"
       , extra_information := "The cat sat." }
       none]
    rfl rfl rfl rfl

/-- Claim C7: when the lookup entry has no truthy audio URL and the TTS
fallback is falsy too, the iteration issues no update, leaves the card
and the processed set untouched, and — since the word was never marked
processed — any later card with the same word and empty audio runs the
full pipeline again from scratch (lookup and fallback are re-invoked). -/
theorem no_audio_source_no_mutation_and_retry
    (env : Env) (p : List String) (c : Nat) (n : Note) (info : WordEntry)
    (ha : pyStrip (n.audio.getD "") = "")
    (hp : n.word ∉ p)
    (hl : get_cambridge_word_info env.language (env.page n.word) = some info)
    (hau : strTruthy info.audio_url = false)
    (ht : strTruthy (env.tts n.word) = false) :
    step env p c n = .ok (p, c, [Event.lookupCall n.word, Event.ttsCall n.word]) ∧
    ∀ (c2 : Nat) (n2 : Note), n2.word = n.word → pyStrip (n2.audio.getD "") = "" →
      step env p c2 n2 = .ok (p, c2, [Event.lookupCall n2.word, Event.ttsCall n2.word]) := by
  refine ⟨step_no_url env p c n info ha hp hl hau ht, fun c2 n2 hw ha2 => ?_⟩
  exact step_no_url env p c2 n2 info ha2 (by rw [hw]; exact hp)
    (by rw [hw]; exact hl) hau (by rw [hw]; exact ht)

/-- Witness for C7: with both audio sources failing for `"cat"`, the card
is left untouched and a later `"cat"` card repeats lookup and TTS. -/
theorem no_audio_source_no_mutation_and_retry_witness :
    step envNoUrl [] 0 ⟨1, "cat", none⟩
      = .ok ([], 0, [Event.lookupCall "cat", Event.ttsCall "cat"]) ∧
    step envNoUrl [] 5 ⟨2, "cat", some ""⟩
      = .ok ([], 5, [Event.lookupCall "cat", Event.ttsCall "cat"]) := by
  have h := no_audio_source_no_mutation_and_retry envNoUrl [] 0 ⟨1, "cat", none⟩
    ⟨none, "a word", []⟩ rfl (by decide) rfl rfl rfl
  exact ⟨h.1, h.2 5 ⟨2, "cat", some ""⟩ rfl rfl⟩

/-- Claim C8 (amended): for a successfully fetched and parsed page the
definition is never null: an absent block yields the literal
`"No definition found."`, and a present block's text is surrounded-
whitespace-stripped and then stripped of its entire maximal run of
trailing colons (Python `rstrip(':')` removes them all): the stripped
text equals the result followed by that many colons, and the result
never ends in a colon. -/
theorem extractDefinition_total_and_strips_colons (t : String) :
    extractDefinition none = "No definition found." ∧
    (pyStrip t).data = (extractDefinition (some t)).data
      ++ List.replicate (trailingColonCount (pyStrip t)) ':' ∧
    (((extractDefinition (some t)).data.getLast? == some ':') = false) := by
  refine ⟨rfl, ?_, ?_⟩
  · conv_lhs => rw [← List.reverse_reverse (pyStrip t).data,
      ← List.takeWhile_append_dropWhile (p := fun c => c == ':') (l := (pyStrip t).data.reverse)]
    rw [List.reverse_append]
    have hrep : (pyStrip t).data.reverse.takeWhile (fun c => c == ':')
        = List.replicate (trailingColonCount (pyStrip t)) ':' := by
      refine List.eq_replicate_of_mem ?_
      intro b hb
      have hb2 : (fun c => c == ':') b = true :=
        List.mem_takeWhile_imp (p := fun c => c == ':') hb
      exact eq_of_beq hb2
    rw [hrep, List.reverse_replicate]
    rfl
  · rw [show (extractDefinition (some t)).data
        = ((pyStrip t).data.reverse.dropWhile (fun c => c == ':')).reverse from rfl]
    rw [List.getLast?_reverse]
    cases hh : ((pyStrip t).data.reverse.dropWhile (fun c => c == ':')).head? with
    | none => rfl
    | some a =>
      have hpa := head_dropWhile_false _ _ _ hh
      simp [hpa]

/-- Witness for C8: the characterization evaluated at `" ab:: "`. -/
theorem extractDefinition_total_and_strips_colons_witness :
    extractDefinition none = "No definition found." ∧
    (pyStrip " ab:: ").data = (extractDefinition (some " ab:: ")).data
      ++ List.replicate (trailingColonCount (pyStrip " ab:: ")) ':' ∧
    (((extractDefinition (some " ab:: ")).data.getLast? == some ':') = false) :=
  extractDefinition_total_and_strips_colons " ab:: "

/-- Counterexample to C8 as stated: a definition block reading
`" mitigate:: "` is stripped to `"mitigate"` — both trailing colons are
removed, not exactly one (`"mitigate:"`). -/
theorem rstrip_removes_all_trailing_colons_cex :
    extractDefinition (some " mitigate:: ") = "mitigate" ∧
    (("mitigate" == "mitigate:") = false) :=
  ⟨by decide, rfl⟩

/-- Counterexample to C9 as stated: a 404 response makes `download_audio`
return the ordinary value `False` (`Except.ok false`) — the `HTTPError`
raised by `raise_for_status` is caught inside the function and is not
propagated out of the audio-fetch operation. -/
theorem download_audio_http_error_returns_false_cex :
    download_audio (GetResult.http 404) = Except.ok false :=
  rfl

/-- Claim C9 (amended): the download session is configured with
`Retry(connect=3, backoff_factor=0.5)` and no status forcelist (only
connection-level failures are retried, HTTP statuses never), and any
HTTP error status (>= 400), like exhausted connection retries, is
caught inside `download_audio` and converted to the failure return
value `False` rather than propagated; a 2xx response returns `True`. -/
theorem download_audio_retry_config_and_error_handling (status : Nat)
    (h : 400 ≤ status) :
    downloadRetryConfig.connect = 3 ∧
    downloadRetryConfig.backoff_factor = 1/2 ∧
    downloadRetryConfig.status_forcelist = [] ∧
    download_audio (GetResult.http status) = Except.ok false ∧
    download_audio GetResult.conn_fail = Except.ok false ∧
    download_audio (GetResult.http 200) = Except.ok true := by
  refine ⟨rfl, rfl, rfl, ?_, rfl, rfl⟩
  simp [download_audio, h]

/-- Witness for C9: the amended statement evaluated at status 404. -/
theorem download_audio_retry_config_and_error_handling_witness :
    downloadRetryConfig.connect = 3 ∧
    downloadRetryConfig.backoff_factor = 1/2 ∧
    downloadRetryConfig.status_forcelist = [] ∧
    download_audio (GetResult.http 404) = Except.ok false ∧
    download_audio GetResult.conn_fail = Except.ok false ∧
    download_audio (GetResult.http 200) = Except.ok true :=
  download_audio_retry_config_and_error_handling 404 (by decide)

/-- Claim C10: `upload_audio_to_anki` is total over its failure modes —
an unreadable file, a transport exception, and a store-reported error
all yield `None` and no exception — and when the upload yields `None`
the orchestrator skips the `updateNoteFields` call and does not add the
word to the processed set. -/
theorem upload_failure_total_and_skips_update
    (env : Env) (p : List String) (c : Nat) (n : Note) (info : WordEntry)
    (okUrl : String) (e : String) (r : Option String)
    (ha : pyStrip (n.audio.getD "") = "")
    (hp : n.word ∉ p)
    (hl : get_cambridge_word_info env.language (env.page n.word) = some info)
    (hau : info.audio_url = some okUrl) (hurl : okUrl ≠ "")
    (hd : download_audio (env.getAudio okUrl) = Except.ok true)
    (hup : upload_audio_to_anki (env.uploadOutcome ("cambridge-" ++ env.uuid c ++ ".mp3"))
      = none) :
    (upload_audio_to_anki UploadOutcome.fileUnreadable = none ∧
     upload_audio_to_anki UploadOutcome.transportFail = none ∧
     upload_audio_to_anki (UploadOutcome.response (some e) r) = none) ∧
    step env p c n = .ok (p, c + 1,
      [Event.lookupCall n.word,
       Event.downloadCall okUrl ("cambridge-" ++ env.uuid c ++ ".mp3"),
       Event.uploadCall ("cambridge-" ++ env.uuid c ++ ".mp3")]) :=
  ⟨⟨rfl, rfl, rfl⟩, step_upload_fail env p c n info okUrl ha hp hl hau hurl hd hup⟩

/-- Witness for C10: a concrete run whose upload post raises — the trace
ends at the upload call, with no update and no processed-set change. -/
theorem upload_failure_total_and_skips_update_witness :
    (upload_audio_to_anki UploadOutcome.fileUnreadable = none ∧
     upload_audio_to_anki UploadOutcome.transportFail = none ∧
     upload_audio_to_anki (UploadOutcome.response (some "disk full") (some "x.mp3")) = none) ∧
    step envUploadDown [] 0 ⟨1, "cat", none⟩ = .ok ([], 1,
      [Event.lookupCall "cat",
       Event.downloadCall "https://dictionary.cambridge.org/media/cat.mp3" "cambridge-u0.mp3",
       Event.uploadCall "cambridge-u0.mp3"]) :=
  upload_failure_total_and_skips_update envUploadDown [] 0 ⟨1, "cat", none⟩
    ⟨some "https://dictionary.cambridge.org/media/cat.mp3", "a small animal", ["The cat sat."]⟩
    "https://dictionary.cambridge.org/media/cat.mp3" "disk full" (some "x.mp3")
    rfl (by decide) rfl rfl (by decide) rfl rfl

end AnkiFB
